import Mathlib

/-!
Formal model of the RunPod LTX-Video serverless job handler (`handler.py`).

The handler receives a job payload (a Python dict), validates and normalizes
the inputs, allocates a temporary output directory, invokes an external
`infer` routine, scans the directory for produced artifacts, and returns
either `{"output_video": path}` or `{"error": message}`.

The embedding models Python values with the inductive `PyVal`, Python
exceptions with the `Except String` monad (an `Except.error` that reaches
the top of `handler` is an uncaught exception escaping the handler), and
the handler's external collaborators (`tempfile.mkdtemp`, `random.randint`,
`get_device`, `infer`, and the `glob` scans) with an explicit environment
`Env`.  `handlerT` additionally returns the list of calls made to the
external `infer` routine, so that "inference is never invoked" is a
statement about the trace.
-/

namespace LTX

/-- Python-like values as they occur in a JSON job payload. -/
inductive PyVal where
  | none : PyVal
  | bool : Bool → PyVal
  | int : Int → PyVal
  | float : Rat → PyVal
  | str : String → PyVal
  | list : List PyVal → PyVal
  | dict : List (String × PyVal) → PyVal

/-- First-match lookup in an association list, modelling Python dict lookup. -/
def dictGet : List (String × PyVal) → String → Option PyVal
  | [], _ => Option.none
  | (k, v) :: rest, key => if k = key then some v else dictGet rest key

/-- Python `x.get(key, default)`: raises `AttributeError` unless `x` is a dict. -/
def pyGetD (v : PyVal) (key : String) (dflt : PyVal) : Except String PyVal :=
  match v with
  | .dict kvs => .ok ((dictGet kvs key).getD dflt)
  | _ => .error "AttributeError: object has no attribute get"

/-- Python truthiness: `None`, `False`, `0`, `0.0`, `""`, `[]`, `{}` are falsy. -/
def pyTruthy : PyVal → Bool
  | .none => false
  | .bool b => b
  | .int n => decide (n ≠ 0)
  | .float q => decide (q ≠ 0)
  | .str s => decide (s ≠ "")
  | .list xs => !xs.isEmpty
  | .dict kvs => !kvs.isEmpty

/-- Python `x is None`. -/
def pyIsNone : PyVal → Bool
  | .none => true
  | _ => false

/-- Python iteration `for x in v`: lists yield elements, strings yield
one-character strings, dicts yield their keys; other values raise
`TypeError`. -/
def pyIter : PyVal → Except String (List PyVal)
  | .list xs => .ok xs
  | .str s => .ok (s.toList.map (fun c => .str (String.mk [c])))
  | .dict kvs => .ok (kvs.map (fun kv => .str kv.1))
  | _ => .error "TypeError: object is not iterable"

/-- Value of a non-empty list of decimal digit characters. -/
def digitsToNat (cs : List Char) : Nat :=
  cs.foldl (fun n c => n * 10 + (c.toNat - 48)) 0

/-- Parse an unsigned decimal integer literal (non-empty, digits only). -/
def parseDigits (cs : List Char) : Option Nat :=
  if cs.isEmpty || !cs.all Char.isDigit then Option.none
  else some (digitsToNat cs)

/-- Strip leading and trailing whitespace from a character list (Python
`int()` and `float()` ignore surrounding whitespace in string arguments). -/
def trimChars (cs : List Char) : List Char :=
  ((cs.dropWhile (fun c => c.isWhitespace)).reverse.dropWhile
    (fun c => c.isWhitespace)).reverse

/-- Parse a Python `int()` string argument: optional sign, then digits. -/
def parsePyInt (s : String) : Option Int :=
  match trimChars s.toList with
  | '-' :: rest => (parseDigits rest).map (fun n => -(n : Int))
  | '+' :: rest => (parseDigits rest).map (fun n => (n : Int))
  | cs => (parseDigits cs).map (fun n => (n : Int))

/-- Parse an unsigned decimal float literal: digits, optionally a point and
more digits (at least one digit overall). -/
def parsePyFloatCore (cs : List Char) : Option Rat :=
  let ip := cs.takeWhile Char.isDigit
  let rest := cs.dropWhile Char.isDigit
  match rest with
  | [] => if ip.isEmpty then Option.none else some ((digitsToNat ip : Int) : Rat)
  | '.' :: fp =>
      if fp.all Char.isDigit && !(ip.isEmpty && fp.isEmpty) then
        some (((digitsToNat ip : Int) : Rat) + (digitsToNat fp : Rat) / ((10 : Rat) ^ fp.length))
      else Option.none
  | _ => Option.none

/-- Parse a Python `float()` string argument: optional sign, then a decimal. -/
def parsePyFloat (s : String) : Option Rat :=
  match trimChars s.toList with
  | '-' :: rest => (parsePyFloatCore rest).map (fun q => -q)
  | '+' :: rest => parsePyFloatCore rest
  | cs => parsePyFloatCore cs

/-- Python `int(x)`: identity on ints, `0`/`1` on bools, truncation toward
zero on floats, literal parsing on strings; raises on everything else. -/
def pyInt : PyVal → Except String Int
  | .bool b => .ok (if b then 1 else 0)
  | .int n => .ok n
  | .float q => .ok (if 0 ≤ q then q.floor else q.ceil)
  | .str s =>
      match parsePyInt s with
      | some n => .ok n
      | Option.none => .error ("ValueError: invalid literal for int() with base 10: " ++ s)
  | .none => .error "TypeError: int() argument cannot be None"
  | .list _ => .error "TypeError: int() argument cannot be a list"
  | .dict _ => .error "TypeError: int() argument cannot be a dict"

/-- Python `float(x)`: ints and bools embed, floats are identity, strings are
parsed; raises on everything else. -/
def pyFloat : PyVal → Except String Rat
  | .bool b => .ok (if b then 1 else 0)
  | .int n => .ok (n : Rat)
  | .float q => .ok q
  | .str s =>
      match parsePyFloat s with
      | some q => .ok q
      | Option.none => .error ("ValueError: could not convert string to float: " ++ s)
  | .none => .error "TypeError: float() argument cannot be None"
  | .list _ => .error "TypeError: float() argument cannot be a list"
  | .dict _ => .error "TypeError: float() argument cannot be a dict"

/-- The two shapes a handler result can take: `{"output_video": path}` or
`{"error": message}`. -/
inductive HResult where
  | output_video : String → HResult
  | error : String → HResult
deriving Repr, DecidableEq

/-- The argument record of one call to the external `infer` routine,
mirroring the keyword arguments at the call site in `handler.py`. -/
structure InferArgs where
  output_path : String
  seed : Int
  pipeline_config : String
  image_cond_noise_scale : Rat
  height : Int
  width : Int
  num_frames : Int
  frame_rate : Int
  prompt : PyVal
  negative_prompt : PyVal
  offload_to_cpu : Bool
  input_media_path : Option String
  conditioning_media_paths : List PyVal
  conditioning_strengths : List Rat
  conditioning_start_frames : List Int
  device : String

/-- The handler's external collaborators: directory allocation, randomness,
device selection, the inference routine, and the glob scans of the output
directory after a successful inference. -/
structure Env where
  mkdtemp : Except String String
  randint : Nat → Nat → Nat
  get_device : Except String String
  infer : InferArgs → Except String Unit
  mp4Files : List String
  pngFiles : List String

def DEFAULT_MODEL_CONFIG : String := "configs/ltxv-13b-0.9.7-distilled.yaml"
def DEFAULT_HEIGHT : Int := 704
def DEFAULT_WIDTH : Int := 1216
def DEFAULT_NUM_FRAMES : Int := 121
def DEFAULT_FRAME_RATE : Int := 30

/-- The default negative prompt from `handler.py`. -/
def DEFAULT_NEGATIVE_PROMPT : String :=
  "worst quality, inconsistent motion, blurry, jittery, distorted"

/-- The validation error produced for a conditioning entry missing `url` or
`start_frame` (the source text has the two field names in single quotes). -/
def condPairMsg : String :=
  "Each conditioning image must have a \x27url\x27 and \x27start_frame\x27."

def promptMsg : String := "Prompt is a required input."

def condRequiredMsg : String :=
  "At least one conditioning image (first frame) is required for image-to-video."

def noValidCondMsg : String := "No valid conditioning images provided or processed."

def noOutputMsg : String := "Inference completed but no output video/image file found."

/-- The per-entry conditioning loop of `handler.py` (lines 64-75): for each
entry, read `url`, `start_frame`, `strength` (default `1.0`); if `url` is
falsy or `start_frame` is `None`, the handler returns the missing-pair error
(`Sum.inl`); otherwise `int(start_frame)` and `float(strength)` are appended
(either may raise).  On completion (`Sum.inr`) the three lists are returned
as (paths, start frames, strengths). -/
def procEntries : List PyVal → Except String (Sum HResult (List PyVal × List Int × List Rat))
  | [] => .ok (.inr ([], [], []))
  | e :: rest =>
    match pyGetD e "url" .none with
    | .error m => .error m
    | .ok url =>
      match pyGetD e "start_frame" .none with
      | .error m => .error m
      | .ok start_frame =>
        match pyGetD e "strength" (.float 1) with
        | .error m => .error m
        | .ok strength =>
          if !(pyTruthy url) || pyIsNone start_frame then
            .ok (.inl (.error condPairMsg))
          else
            match pyInt start_frame with
            | .error m => .error m
            | .ok sf =>
              match pyFloat strength with
              | .error m => .error m
              | .ok st =>
                match procEntries rest with
                | .error m => .error m
                | .ok (.inl r) => .ok (.inl r)
                | .ok (.inr (ps, sfs, sts)) => .ok (.inr (url :: ps, sf :: sfs, st :: sts))

/-- The tail of the `try` block once the `infer` arguments are assembled
(lines 95-134): call `infer`, then scan the output directory (`*.mp4`
matches followed by `*.png` matches) and pick the first file.  The second
component records the `infer` call. -/
def postInfer (env : Env) (args : InferArgs) : Except String HResult × List InferArgs :=
  match env.infer args with
  | .error m => (.error m, [args])
  | .ok _ =>
    match env.mp4Files ++ env.pngFiles with
    | [] => (.ok (.error noOutputMsg), [args])
    | f :: _ => (.ok (.output_video f), [args])

/-- The body of the `try` block (lines 81-134): select the device, coerce the
numeric fields in the order the `infer` call evaluates them, then hand the
assembled argument record to `postInfer`. -/
def tryInference (env : Env) (job_output_dir : String)
    (seed height width num_frames frame_rate prompt negative_prompt : PyVal)
    (paths : List PyVal) (starts : List Int) (strengths : List Rat) :
    Except String HResult × List InferArgs :=
  match env.get_device with
  | .error m => (.error m, [])
  | .ok device =>
    match pyInt seed with
    | .error m => (.error m, [])
    | .ok seedI =>
      match pyInt height with
      | .error m => (.error m, [])
      | .ok heightI =>
        match pyInt width with
        | .error m => (.error m, [])
        | .ok widthI =>
          match pyInt num_frames with
          | .error m => (.error m, [])
          | .ok numFramesI =>
            match pyInt frame_rate with
            | .error m => (.error m, [])
            | .ok frameRateI =>
              postInfer env
                { output_path := job_output_dir
                  seed := seedI
                  pipeline_config := DEFAULT_MODEL_CONFIG
                  image_cond_noise_scale := 15 / 100
                  height := heightI
                  width := widthI
                  num_frames := numFramesI
                  frame_rate := frameRateI
                  prompt := prompt
                  negative_prompt := negative_prompt
                  offload_to_cpu := false
                  input_media_path := Option.none
                  conditioning_media_paths := paths
                  conditioning_strengths := strengths
                  conditioning_start_frames := starts
                  device := device }

/-- The `except Exception` conversion (lines 136-141): any exception from the
try body is converted to `{"error": "Inference failed: " + str(e)}`. -/
def wrapCatch (p : Except String HResult × List InferArgs) :
    Except String HResult × List InferArgs :=
  match p with
  | (.error m, tr) => (.ok (.error ("Inference failed: " ++ m)), tr)
  | (.ok r, tr) => (.ok r, tr)

/-- The whole `try ... except` statement. -/
def tryWrap (env : Env) (job_output_dir : String)
    (seed height width num_frames frame_rate prompt negative_prompt : PyVal)
    (paths : List PyVal) (starts : List Int) (strengths : List Rat) :
    Except String HResult × List InferArgs :=
  wrapCatch (tryInference env job_output_dir seed height width num_frames frame_rate
    prompt negative_prompt paths starts strengths)

/-- The handler body once `job_input` is known to be a dict (every `.get` on
it then succeeds), mirroring `handler.py` lines 26-141 statement by
statement. -/
def handlerCore (env : Env) (kvs : List (String × PyVal)) :
    Except String HResult × List InferArgs :=
  let prompt := (dictGet kvs "prompt").getD .none
  if !(pyTruthy prompt) then (.ok (.error promptMsg), [])
  else
    let negative_prompt := (dictGet kvs "negative_prompt").getD (.str DEFAULT_NEGATIVE_PROMPT)
    let height := (dictGet kvs "height").getD (.int DEFAULT_HEIGHT)
    let width := (dictGet kvs "width").getD (.int DEFAULT_WIDTH)
    let num_frames := (dictGet kvs "num_frames").getD (.int DEFAULT_NUM_FRAMES)
    let frame_rate := (dictGet kvs "frame_rate").getD (.int DEFAULT_FRAME_RATE)
    let seed := (dictGet kvs "seed").getD (.int (env.randint 0 (2 ^ 32 - 1)))
    let conditioning_images_input := (dictGet kvs "conditioning_images").getD (.list [])
    if !(pyTruthy conditioning_images_input) then
      (.ok (.error condRequiredMsg), [])
    else
      match env.mkdtemp with
      | .error m => (.error m, [])
      | .ok job_output_dir =>
        match pyIter conditioning_images_input with
        | .error m => (.error m, [])
        | .ok entries =>
          match procEntries entries with
          | .error m => (.error m, [])
          | .ok (.inl r) => (.ok r, [])
          | .ok (.inr (paths, starts, strengths)) =>
            if paths.isEmpty then (.ok (.error noValidCondMsg), [])
            else
              tryWrap env job_output_dir seed height width num_frames frame_rate
                prompt negative_prompt paths starts strengths

/-- The full handler on an arbitrary job value: `job.get("input", {})` raises
unless `job` is a dict, and `job_input.get("prompt")` raises unless the
extracted `job_input` is a dict.  The second component is the list of calls
made to the external `infer` routine. -/
def handlerT (env : Env) (job : PyVal) : Except String HResult × List InferArgs :=
  match pyGetD job "input" (.dict []) with
  | .error m => (.error m, [])
  | .ok job_input =>
    match job_input with
    | .dict kvs => handlerCore env kvs
    | _ => (.error "AttributeError: object has no attribute get", [])

/-- The handler's result: `Except.ok` is a returned Python dict of one of the
two result shapes, `Except.error` is an exception escaping the handler. -/
def handler (env : Env) (job : PyVal) : Except String HResult :=
  (handlerT env job).1

/-- Whether an `Except` computation succeeded. -/
def exceptOk {α : Type} : Except String α → Bool
  | .ok _ => true
  | .error _ => false

/-- The value of a successful `Except` computation, with a fallback. -/
def exceptD {α : Type} (x : Except String α) (d : α) : α :=
  match x with
  | .ok a => a
  | .error _ => d

/-- Whether a value is a Python dict. -/
def isDictB : PyVal → Bool
  | .dict _ => true
  | _ => false

/-- The `url` field of a conditioning entry (default `None`). -/
def entryUrl (e : PyVal) : PyVal :=
  match e with
  | .dict kvs => (dictGet kvs "url").getD .none
  | _ => .none

/-- The `start_frame` field of a conditioning entry (default `None`). -/
def entryStartVal (e : PyVal) : PyVal :=
  match e with
  | .dict kvs => (dictGet kvs "start_frame").getD .none
  | _ => .none

/-- The `strength` field of a conditioning entry (default `1.0`). -/
def entryStrengthVal (e : PyVal) : PyVal :=
  match e with
  | .dict kvs => (dictGet kvs "strength").getD (.float 1)
  | _ => .float 1

/-- `int(start_frame)` of a conditioning entry (`0` if the coercion raises;
the fallback is never consulted on entries whose coercion succeeds). -/
def entryStartFrame (e : PyVal) : Int :=
  exceptD (pyInt (entryStartVal e)) 0

/-- `float(strength)` of a conditioning entry (`1` if the coercion raises). -/
def entryStrength (e : PyVal) : Rat :=
  exceptD (pyFloat (entryStrengthVal e)) 1

/-- A conditioning entry that sails through the loop body: it is a dict, its
`url` is truthy, its `start_frame` is present and not `None`, and both
coercions succeed. -/
def goodEntryB (e : PyVal) : Bool :=
  isDictB e && pyTruthy (entryUrl e) && !pyIsNone (entryStartVal e) &&
    exceptOk (pyInt (entryStartVal e)) && exceptOk (pyFloat (entryStrengthVal e))

/-- A conditioning entry that the loop body processes without raising: a dict
that either fails the presence check (causing an error return) or has
coercible `start_frame` and `strength`. -/
def safeEntryB (e : PyVal) : Bool :=
  isDictB e &&
    ((!pyTruthy (entryUrl e) || pyIsNone (entryStartVal e)) ||
      (exceptOk (pyInt (entryStartVal e)) && exceptOk (pyFloat (entryStrengthVal e))))

/-- The outcome of the `try` block once the `infer` arguments have been
assembled: an `infer` exception is wrapped with the "Inference failed: "
prefix, otherwise the first glob match (or the missing-output error) is
returned. -/
def wrapR (env : Env) (args : InferArgs) : HResult :=
  match env.infer args with
  | .error m => .error ("Inference failed: " ++ m)
  | .ok _ =>
    match env.mp4Files ++ env.pngFiles with
    | [] => .error noOutputMsg
    | f :: _ => .output_video f

/-- The `infer` argument record assembled from already-looked-up field
values. -/
def mkArgs (dirStr : String) (seedV heightV widthV numFramesV frameRateV : PyVal)
    (promptV npV : PyVal) (dev : String)
    (paths : List PyVal) (starts : List Int) (strengths : List Rat) : InferArgs :=
  { output_path := dirStr
    seed := exceptD (pyInt seedV) 0
    pipeline_config := DEFAULT_MODEL_CONFIG
    image_cond_noise_scale := 15 / 100
    height := exceptD (pyInt heightV) 0
    width := exceptD (pyInt widthV) 0
    num_frames := exceptD (pyInt numFramesV) 0
    frame_rate := exceptD (pyInt frameRateV) 0
    prompt := promptV
    negative_prompt := npV
    offload_to_cpu := false
    input_media_path := Option.none
    conditioning_media_paths := paths
    conditioning_strengths := strengths
    conditioning_start_frames := starts
    device := dev }

/-- The `infer` argument record the handler passes for a job whose input
dict is `kvs` and whose conditioning entries are `es`, given the allocated
directory `d` and selected device `dev`. -/
def mkArgsOf (env : Env) (kvs : List (String × PyVal)) (es : List PyVal)
    (d dev : String) : InferArgs :=
  mkArgs d
    ((dictGet kvs "seed").getD (.int (env.randint 0 (2 ^ 32 - 1))))
    ((dictGet kvs "height").getD (.int DEFAULT_HEIGHT))
    ((dictGet kvs "width").getD (.int DEFAULT_WIDTH))
    ((dictGet kvs "num_frames").getD (.int DEFAULT_NUM_FRAMES))
    ((dictGet kvs "frame_rate").getD (.int DEFAULT_FRAME_RATE))
    ((dictGet kvs "prompt").getD .none)
    ((dictGet kvs "negative_prompt").getD (.str DEFAULT_NEGATIVE_PROMPT))
    dev (es.map entryUrl) (es.map entryStartFrame) (es.map entryStrength)

/-- Whether the first list is an initial segment of the second. -/
def startsList : List Char → List Char → Bool
  | [], _ => true
  | _ :: _, [] => false
  | p :: ps, c :: cs => p == c && startsList ps cs

/-- Whether the first list occurs as a contiguous sublist of the second
(used to state that an error message does or does not mention a phrase). -/
def subOccurs (p : List Char) : List Char → Bool
  | [] => startsList p []
  | c :: cs => startsList p (c :: cs) || subOccurs p cs

/-- Whether a handler outcome is the (unreachable) "no valid conditioning
images" error return. -/
def isNoValidCondError : Except String HResult → Bool
  | .ok (.error m) => m == noValidCondMsg
  | _ => false

/-- A benign environment: directory allocation and device selection succeed,
`infer` succeeds, the output directory ends up empty. -/
def env0 : Env :=
  { mkdtemp := .ok "/tmp/ltx_video_output_x"
    randint := fun lo _ => lo
    get_device := .ok "cuda"
    infer := fun _ => .ok ()
    mp4Files := []
    pngFiles := [] }

/-- `env0` with one `video_0.mp4` produced in the output directory. -/
def envOut : Env :=
  { env0 with mp4Files := ["/tmp/ltx_video_output_x/video_0.mp4"] }

/-- `env0` with an `infer` routine that raises with message "boom". -/
def envBoom : Env :=
  { env0 with infer := fun _ => .error "boom" }

/-- A conditioning entry with a truthy url and `start_frame` zero. -/
def goodEntry : PyVal := .dict [("url", .str "u"), ("start_frame", .int 0)]

/-- A fully valid job: prompt present, one good conditioning entry. -/
def goodJob : PyVal :=
  .dict [("input", .dict
    [("prompt", .str "p"), ("conditioning_images", .list [goodEntry])])]

theorem exceptOk_exists {α : Type} {x : Except String α} (h : exceptOk x = true) :
    ∃ a, x = .ok a := by
  cases x with
  | ok a => exact ⟨a, rfl⟩
  | error m => simp [exceptOk] at h

theorem pyTruthy_list_of_ne_nil {es : List PyVal} (h : es ≠ []) :
    pyTruthy (.list es) = true := by
  cases es with
  | nil => exact absurd rfl h
  | cons e rest => rfl

theorem pyIter_truthy_ne_nil {v : PyVal} {es : List PyVal}
    (ht : pyTruthy v = true) (hi : pyIter v = .ok es) : es ≠ [] := by
  cases v with
  | none => simp [pyTruthy] at ht
  | bool b => simp [pyIter] at hi
  | int n => simp [pyIter] at hi
  | float q => simp [pyIter] at hi
  | str s =>
    simp only [pyIter, Except.ok.injEq] at hi
    subst hi
    simp only [pyTruthy, decide_eq_true_eq] at ht
    intro hmap
    rw [List.map_eq_nil_iff] at hmap
    apply ht
    apply String.ext
    rw [show ("" : String).data = [] from rfl]
    rw [show String.toList s = s.data from rfl] at hmap
    exact hmap
  | list xs =>
    simp only [pyIter, Except.ok.injEq] at hi
    subst hi
    simp only [pyTruthy, Bool.not_eq_true'] at ht
    simp [List.isEmpty_eq_false] at ht
    exact ht
  | dict kvs =>
    simp only [pyIter, Except.ok.injEq] at hi
    subst hi
    simp only [pyTruthy, Bool.not_eq_true'] at ht
    simp [List.isEmpty_eq_false] at ht
    intro hmap
    rw [List.map_eq_nil_iff] at hmap
    exact ht hmap

theorem procEntries_all_good : ∀ es : List PyVal, (∀ e ∈ es, goodEntryB e = true) →
    procEntries es = .ok (.inr (es.map entryUrl, es.map entryStartFrame, es.map entryStrength)) := by
  intro es
  induction es with
  | nil => intro _; rfl
  | cons e rest ih =>
    intro h
    have he := h e (List.mem_cons_self e rest)
    have hrest := ih (fun x hx => h x (List.mem_cons_of_mem e hx))
    simp only [goodEntryB, Bool.and_eq_true] at he
    obtain ⟨⟨⟨⟨hd, hurl⟩, hsf⟩, hsfok⟩, hstok⟩ := he
    cases e with
    | dict bkvs =>
      rw [Bool.not_eq_true'] at hsf
      obtain ⟨si, hsi⟩ := exceptOk_exists hsfok
      obtain ⟨ti, hti⟩ := exceptOk_exists hstok
      simp only [entryUrl, entryStartVal, entryStrengthVal] at hurl hsf hsi hti
      simp only [procEntries, pyGetD, hurl, hsf, hsi, hti, hrest, Bool.not_true,
        Bool.false_or, if_false, Bool.false_eq_true]
      simp [entryUrl, entryStartVal, entryStrengthVal, entryStartFrame, entryStrength,
        hsi, hti, exceptD]
    | none => simp [isDictB] at hd
    | bool b => simp [isDictB] at hd
    | int n => simp [isDictB] at hd
    | float q => simp [isDictB] at hd
    | str s => simp [isDictB] at hd
    | list xs => simp [isDictB] at hd

theorem procEntries_safe : ∀ es : List PyVal, (∀ e ∈ es, safeEntryB e = true) →
    ∃ out, procEntries es = .ok out := by
  intro es
  induction es with
  | nil => intro _; exact ⟨.inr ([], [], []), rfl⟩
  | cons e rest ih =>
    intro h
    have he := h e (List.mem_cons_self e rest)
    obtain ⟨out, hrest⟩ := ih (fun x hx => h x (List.mem_cons_of_mem e hx))
    simp only [safeEntryB, Bool.and_eq_true] at he
    obtain ⟨hd, hbody⟩ := he
    cases e with
    | dict bkvs =>
      simp only [entryUrl, entryStartVal, entryStrengthVal] at hbody
      simp only [procEntries, pyGetD]
      rcases hpres : (!pyTruthy ((dictGet bkvs "url").getD .none) ||
          pyIsNone ((dictGet bkvs "start_frame").getD .none)) with _ | _
      · rw [hpres] at hbody
        simp only [Bool.false_or, Bool.and_eq_true] at hbody
        obtain ⟨hsfok, hstok⟩ := hbody
        obtain ⟨si, hsi⟩ := exceptOk_exists hsfok
        obtain ⟨ti, hti⟩ := exceptOk_exists hstok
        rw [hsi, hti, hrest]
        cases out with
        | inl r => exact ⟨.inl r, by simp⟩
        | inr t =>
          obtain ⟨ps, sfs, sts⟩ := t
          exact ⟨.inr ((dictGet bkvs "url").getD .none :: ps, si :: sfs, ti :: sts), by simp⟩
      · exact ⟨.inl (.error condPairMsg), by simp⟩
    | none => simp [isDictB] at hd
    | bool b => simp [isDictB] at hd
    | int n => simp [isDictB] at hd
    | float q => simp [isDictB] at hd
    | str s => simp [isDictB] at hd
    | list xs => simp [isDictB] at hd

theorem procEntries_inl_msg : ∀ (es : List PyVal) (r : HResult),
    procEntries es = .ok (.inl r) → r = .error condPairMsg := by
  intro es
  induction es with
  | nil =>
    intro r h
    simp only [procEntries] at h
    cases h
  | cons e rest ih =>
    intro r h
    simp only [procEntries] at h
    split at h
    · cases h
    · split at h
      · cases h
      · split at h
        · cases h
        · split at h
          · simp only [Except.ok.injEq, Sum.inl.injEq] at h
            exact h.symm
          · split at h
            · cases h
            · split at h
              · cases h
              · split at h
                · cases h
                · rename_i heq
                  simp only [Except.ok.injEq, Sum.inl.injEq] at h
                  subst h
                  exact ih _ heq
                · cases h

theorem procEntries_cons_inr_ne_nil (e : PyVal) (rest : List PyVal)
    (ps : List PyVal) (sfs : List Int) (sts : List Rat)
    (h : procEntries (e :: rest) = .ok (.inr (ps, sfs, sts))) : ps ≠ [] := by
  simp only [procEntries] at h
  split at h
  · cases h
  · split at h
    · cases h
    · split at h
      · cases h
      · split at h
        · cases h
        · split at h
          · cases h
          · split at h
            · cases h
            · split at h
              · cases h
              · cases h
              · rename_i ps' sfs' sts' heq
                simp only [Except.ok.injEq, Sum.inr.injEq, Prod.mk.injEq] at h
                obtain ⟨h1, _, _⟩ := h
                subst h1
                simp

theorem inference_failed_ne_noValid (m : String) :
    ("Inference failed: " ++ m) ≠ noValidCondMsg := by
  intro h
  have h2 := congrArg (fun s => s.data.head?) h
  have h3 : (some 'I' : Option Char) = some 'N' := by
    obtain ⟨md⟩ := m
    exact h2
  simp at h3

theorem wrapCatch_postInfer (env : Env) (args : InferArgs) :
    wrapCatch (postInfer env args) = (.ok (wrapR env args), [args]) := by
  unfold wrapCatch postInfer wrapR
  cases hinf : env.infer args with
  | error m => simp
  | ok u =>
    cases hfiles : env.mp4Files ++ env.pngFiles with
    | nil => simp
    | cons f fs => simp

theorem tryWrap_fst_ok (env : Env) (dirStr : String)
    (seedV heightV widthV numFramesV frameRateV promptV npV : PyVal)
    (paths : List PyVal) (starts : List Int) (strengths : List Rat) :
    ∃ r, (tryWrap env dirStr seedV heightV widthV numFramesV frameRateV
      promptV npV paths starts strengths).1 = .ok r := by
  unfold tryWrap wrapCatch
  split
  · rename_i m tr heq
    exact ⟨.error ("Inference failed: " ++ m), rfl⟩
  · rename_i r tr heq
    exact ⟨r, rfl⟩

theorem tryWrap_valid (env : Env) (dirStr dev : String)
    (seedV heightV widthV numFramesV frameRateV promptV npV : PyVal)
    (paths : List PyVal) (starts : List Int) (strengths : List Rat)
    (hdev : env.get_device = .ok dev)
    (hseed : exceptOk (pyInt seedV) = true)
    (hh : exceptOk (pyInt heightV) = true)
    (hw : exceptOk (pyInt widthV) = true)
    (hnf : exceptOk (pyInt numFramesV) = true)
    (hfr : exceptOk (pyInt frameRateV) = true) :
    tryWrap env dirStr seedV heightV widthV numFramesV frameRateV
        promptV npV paths starts strengths =
      (.ok (wrapR env (mkArgs dirStr seedV heightV widthV numFramesV frameRateV
        promptV npV dev paths starts strengths)),
       [mkArgs dirStr seedV heightV widthV numFramesV frameRateV
        promptV npV dev paths starts strengths]) := by
  obtain ⟨si, hsi⟩ := exceptOk_exists hseed
  obtain ⟨hi, hhi⟩ := exceptOk_exists hh
  obtain ⟨wi, hwi⟩ := exceptOk_exists hw
  obtain ⟨ni, hni⟩ := exceptOk_exists hnf
  obtain ⟨fi, hfi⟩ := exceptOk_exists hfr
  unfold tryWrap tryInference
  rw [hdev, hsi, hhi, hwi, hni, hfi]
  rw [wrapCatch_postInfer]
  simp only [mkArgs, hsi, hhi, hwi, hni, hfi, exceptD]

theorem tryWrap_device_error (env : Env) (dirStr : String)
    (seedV heightV widthV numFramesV frameRateV promptV npV : PyVal)
    (paths : List PyVal) (starts : List Int) (strengths : List Rat)
    (m : String) (hdev : env.get_device = .error m) :
    tryWrap env dirStr seedV heightV widthV numFramesV frameRateV
        promptV npV paths starts strengths =
      (.ok (.error ("Inference failed: " ++ m)), []) := by
  unfold tryWrap tryInference
  rw [hdev]
  rfl

theorem handlerT_dict (env : Env) (jkvs kvs : List (String × PyVal))
    (hi : (dictGet jkvs "input").getD (.dict []) = .dict kvs) :
    handlerT env (.dict jkvs) = handlerCore env kvs := by
  unfold handlerT
  simp only [pyGetD]
  rw [hi]

theorem handlerCore_prompt_falsy (env : Env) (kvs : List (String × PyVal))
    (hp : pyTruthy ((dictGet kvs "prompt").getD .none) = false) :
    handlerCore env kvs = (.ok (.error promptMsg), []) := by
  simp [handlerCore, hp]

theorem handlerCore_cond_falsy (env : Env) (kvs : List (String × PyVal))
    (hp : pyTruthy ((dictGet kvs "prompt").getD .none) = true)
    (hc : pyTruthy ((dictGet kvs "conditioning_images").getD (.list [])) = false) :
    handlerCore env kvs = (.ok (.error condRequiredMsg), []) := by
  simp [handlerCore, hp, hc]

theorem handlerCore_inl (env : Env) (kvs : List (String × PyVal))
    (es : List PyVal) (d : String) (r : HResult)
    (hp : pyTruthy ((dictGet kvs "prompt").getD .none) = true)
    (hcv : (dictGet kvs "conditioning_images").getD (.list []) = .list es)
    (hne : es ≠ [])
    (hm : env.mkdtemp = .ok d)
    (hproc : procEntries es = .ok (.inl r)) :
    handlerCore env kvs = (.ok r, []) := by
  simp [handlerCore, hp, hcv, hm, pyTruthy_list_of_ne_nil hne, pyIter, hproc]

theorem handlerCore_inr (env : Env) (kvs : List (String × PyVal))
    (es : List PyVal) (d : String)
    (ps : List PyVal) (sfs : List Int) (sts : List Rat)
    (hp : pyTruthy ((dictGet kvs "prompt").getD .none) = true)
    (hcv : (dictGet kvs "conditioning_images").getD (.list []) = .list es)
    (hne : es ≠ [])
    (hm : env.mkdtemp = .ok d)
    (hproc : procEntries es = .ok (.inr (ps, sfs, sts)))
    (hps : ps ≠ []) :
    handlerCore env kvs = tryWrap env d
      ((dictGet kvs "seed").getD (.int (env.randint 0 (2 ^ 32 - 1))))
      ((dictGet kvs "height").getD (.int DEFAULT_HEIGHT))
      ((dictGet kvs "width").getD (.int DEFAULT_WIDTH))
      ((dictGet kvs "num_frames").getD (.int DEFAULT_NUM_FRAMES))
      ((dictGet kvs "frame_rate").getD (.int DEFAULT_FRAME_RATE))
      ((dictGet kvs "prompt").getD .none)
      ((dictGet kvs "negative_prompt").getD (.str DEFAULT_NEGATIVE_PROMPT))
      ps sfs sts := by
  have hpse : ps.isEmpty = false := by
    rw [List.isEmpty_eq_false]
    exact hps
  simp [handlerCore, hp, hcv, hm, pyTruthy_list_of_ne_nil hne, pyIter, hproc, hpse]

theorem map_entryUrl_ne_nil {es : List PyVal} (hne : es ≠ []) :
    es.map entryUrl ≠ [] := by
  intro h
  exact hne (List.map_eq_nil_iff.mp h)

theorem handlerT_valid (env : Env) (job : PyVal)
    (jkvs kvs : List (String × PyVal)) (es : List PyVal) (d dev : String)
    (hj : job = .dict jkvs)
    (hi : (dictGet jkvs "input").getD (.dict []) = .dict kvs)
    (hp : pyTruthy ((dictGet kvs "prompt").getD .none) = true)
    (hcv : (dictGet kvs "conditioning_images").getD (.list []) = .list es)
    (hne : es ≠ [])
    (hg : ∀ e ∈ es, goodEntryB e = true)
    (hm : env.mkdtemp = .ok d)
    (hdev : env.get_device = .ok dev)
    (hseed : exceptOk (pyInt ((dictGet kvs "seed").getD
      (.int (env.randint 0 (2 ^ 32 - 1))))) = true)
    (hh : exceptOk (pyInt ((dictGet kvs "height").getD (.int DEFAULT_HEIGHT))) = true)
    (hw : exceptOk (pyInt ((dictGet kvs "width").getD (.int DEFAULT_WIDTH))) = true)
    (hnf : exceptOk (pyInt ((dictGet kvs "num_frames").getD (.int DEFAULT_NUM_FRAMES))) = true)
    (hfr : exceptOk (pyInt ((dictGet kvs "frame_rate").getD (.int DEFAULT_FRAME_RATE))) = true) :
    handlerT env job =
      (.ok (wrapR env (mkArgsOf env kvs es d dev)), [mkArgsOf env kvs es d dev]) := by
  subst hj
  rw [handlerT_dict env jkvs kvs hi]
  rw [handlerCore_inr env kvs es d _ _ _ hp hcv hne hm (procEntries_all_good es hg)
    (map_entryUrl_ne_nil hne)]
  rw [tryWrap_valid env d dev _ _ _ _ _ _ _ _ _ _ hdev hseed hh hw hnf hfr]
  rfl

theorem handlerT_device_error (env : Env) (job : PyVal)
    (jkvs kvs : List (String × PyVal)) (es : List PyVal) (d : String)
    (hj : job = .dict jkvs)
    (hi : (dictGet jkvs "input").getD (.dict []) = .dict kvs)
    (hp : pyTruthy ((dictGet kvs "prompt").getD .none) = true)
    (hcv : (dictGet kvs "conditioning_images").getD (.list []) = .list es)
    (hne : es ≠ [])
    (hg : ∀ e ∈ es, goodEntryB e = true)
    (hm : env.mkdtemp = .ok d)
    (m : String) (hdev : env.get_device = .error m) :
    handlerT env job = (.ok (.error ("Inference failed: " ++ m)), []) := by
  subst hj
  rw [handlerT_dict env jkvs kvs hi]
  rw [handlerCore_inr env kvs es d _ _ _ hp hcv hne hm (procEntries_all_good es hg)
    (map_entryUrl_ne_nil hne)]
  rw [tryWrap_device_error env d _ _ _ _ _ _ _ _ _ _ m hdev]

theorem procEntries_append_bad (bad : PyVal) (rest : List PyVal)
    (hbd : isDictB bad = true)
    (hbp : (!pyTruthy (entryUrl bad) || pyIsNone (entryStartVal bad)) = true) :
    ∀ good : List PyVal, (∀ e ∈ good, goodEntryB e = true) →
    procEntries (good ++ bad :: rest) = .ok (.inl (.error condPairMsg)) := by
  intro good
  induction good with
  | nil =>
    intro _
    cases bad with
    | dict bkvs =>
      simp only [entryUrl, entryStartVal] at hbp
      simp only [List.nil_append, procEntries, pyGetD, hbp]
      simp
    | none => simp [isDictB] at hbd
    | bool b => simp [isDictB] at hbd
    | int n => simp [isDictB] at hbd
    | float q => simp [isDictB] at hbd
    | str s => simp [isDictB] at hbd
    | list xs => simp [isDictB] at hbd
  | cons g good' ih =>
    intro h
    have hg := h g (List.mem_cons_self g good')
    have hrest := ih (fun x hx => h x (List.mem_cons_of_mem g hx))
    simp only [goodEntryB, Bool.and_eq_true] at hg
    obtain ⟨⟨⟨⟨hd, hurl⟩, hsf⟩, hsfok⟩, hstok⟩ := hg
    cases g with
    | dict gkvs =>
      rw [Bool.not_eq_true'] at hsf
      obtain ⟨si, hsi⟩ := exceptOk_exists hsfok
      obtain ⟨ti, hti⟩ := exceptOk_exists hstok
      simp only [entryUrl, entryStartVal, entryStrengthVal] at hurl hsf hsi hti
      simp only [List.cons_append, procEntries, pyGetD, hurl, hsf, hsi, hti,
        Bool.not_true, Bool.false_or, if_false, Bool.false_eq_true]
      rw [List.append_eq, hrest]
    | none => simp [isDictB] at hd
    | bool b => simp [isDictB] at hd
    | int n => simp [isDictB] at hd
    | float q => simp [isDictB] at hd
    | str s => simp [isDictB] at hd
    | list xs => simp [isDictB] at hd

theorem handlerCore_inr_empty (env : Env) (kvs : List (String × PyVal))
    (es : List PyVal) (d : String) (sfs : List Int) (sts : List Rat)
    (hp : pyTruthy ((dictGet kvs "prompt").getD .none) = true)
    (hcv : (dictGet kvs "conditioning_images").getD (.list []) = .list es)
    (hne : es ≠ [])
    (hm : env.mkdtemp = .ok d)
    (hproc : procEntries es = .ok (.inr ([], sfs, sts))) :
    handlerCore env kvs = (.ok (.error noValidCondMsg), []) := by
  simp [handlerCore, hp, hcv, hm, pyTruthy_list_of_ne_nil hne, pyIter, hproc]

theorem tryInference_ok_shape (env : Env) (dirStr : String)
    (seedV heightV widthV numFramesV frameRateV promptV npV : PyVal)
    (paths : List PyVal) (starts : List Int) (strengths : List Rat)
    (r : HResult) (tr : List InferArgs)
    (h : tryInference env dirStr seedV heightV widthV numFramesV frameRateV
      promptV npV paths starts strengths = (.ok r, tr)) :
    r = .error noOutputMsg ∨ ∃ f, r = .output_video f := by
  unfold tryInference at h
  split at h
  · simp at h
  · split at h
    · simp at h
    · split at h
      · simp at h
      · split at h
        · simp at h
        · split at h
          · simp at h
          · split at h
            · simp at h
            · unfold postInfer at h
              split at h
              · simp at h
              · split at h
                · simp only [Prod.mk.injEq, Except.ok.injEq] at h
                  exact Or.inl h.1.symm
                · simp only [Prod.mk.injEq, Except.ok.injEq] at h
                  exact Or.inr ⟨_, h.1.symm⟩

theorem tryWrap_not_noValid (env : Env) (dirStr : String)
    (seedV heightV widthV numFramesV frameRateV promptV npV : PyVal)
    (paths : List PyVal) (starts : List Int) (strengths : List Rat) :
    isNoValidCondError (tryWrap env dirStr seedV heightV widthV numFramesV frameRateV
      promptV npV paths starts strengths).1 = false := by
  unfold tryWrap wrapCatch
  split
  · rename_i m tr heq
    simp only [isNoValidCondError]
    rw [beq_eq_false_iff_ne]
    exact inference_failed_ne_noValid m
  · rename_i r tr heq
    rcases tryInference_ok_shape env dirStr seedV heightV widthV numFramesV frameRateV
        promptV npV paths starts strengths r tr heq with hr | ⟨f, hr⟩
    · subst hr
      simp only [isNoValidCondError]
      decide
    · subst hr
      rfl

theorem pyTruthy_list_ne_nil {es : List PyVal} (h : pyTruthy (.list es) = true) :
    es ≠ [] := by
  simp only [pyTruthy, Bool.not_eq_true'] at h
  rw [List.isEmpty_eq_false] at h
  exact h

theorem handlerT_ok_of_safe (env : Env) (job : PyVal)
    (jkvs kvs : List (String × PyVal)) (d : String)
    (hj : job = .dict jkvs)
    (hi : (dictGet jkvs "input").getD (.dict []) = .dict kvs)
    (hm : env.mkdtemp = .ok d)
    (hc : ∀ v, dictGet kvs "conditioning_images" = some v → pyTruthy v = true →
      ∃ es, v = .list es ∧ ∀ e ∈ es, safeEntryB e = true) :
    ∃ r, handler env job = .ok r := by
  subst hj
  unfold handler
  rw [handlerT_dict env jkvs kvs hi]
  cases hpt : pyTruthy ((dictGet kvs "prompt").getD .none) with
  | false =>
    rw [handlerCore_prompt_falsy env kvs hpt]
    exact ⟨.error promptMsg, rfl⟩
  | true =>
    cases hct : pyTruthy ((dictGet kvs "conditioning_images").getD (.list [])) with
    | false =>
      rw [handlerCore_cond_falsy env kvs hpt hct]
      exact ⟨.error condRequiredMsg, rfl⟩
    | true =>
      cases hlook : dictGet kvs "conditioning_images" with
      | none =>
        rw [hlook] at hct
        simp [pyTruthy] at hct
      | some v =>
        have hcv : (dictGet kvs "conditioning_images").getD (.list []) = v := by
          rw [hlook]
          rfl
        rw [hcv] at hct
        obtain ⟨es, rfl, hsafe⟩ := hc v hlook hct
        have hne : es ≠ [] := pyTruthy_list_ne_nil hct
        obtain ⟨out, hout⟩ := procEntries_safe es hsafe
        cases out with
        | inl r =>
          rw [handlerCore_inl env kvs es d r hpt hcv hne hm hout]
          exact ⟨r, rfl⟩
        | inr t =>
          obtain ⟨ps, sfs, sts⟩ := t
          cases ps with
          | nil =>
            rw [handlerCore_inr_empty env kvs es d sfs sts hpt hcv hne hm hout]
            exact ⟨.error noValidCondMsg, rfl⟩
          | cons p ps' =>
            rw [handlerCore_inr env kvs es d (p :: ps') sfs sts hpt hcv hne hm hout
              (by simp)]
            exact tryWrap_fst_ok env d _ _ _ _ _ _ _ (p :: ps') sfs sts

theorem handlerCore_mkdtemp_error (env : Env) (kvs : List (String × PyVal))
    (hp : pyTruthy ((dictGet kvs "prompt").getD .none) = true)
    (hct : pyTruthy ((dictGet kvs "conditioning_images").getD (.list [])) = true)
    (m : String) (hm : env.mkdtemp = .error m) :
    handlerCore env kvs = (.error m, []) := by
  simp [handlerCore, hp, hct, hm]

theorem handlerCore_iter_error (env : Env) (kvs : List (String × PyVal)) (d : String)
    (hp : pyTruthy ((dictGet kvs "prompt").getD .none) = true)
    (hct : pyTruthy ((dictGet kvs "conditioning_images").getD (.list [])) = true)
    (hm : env.mkdtemp = .ok d)
    (m : String)
    (hit : pyIter ((dictGet kvs "conditioning_images").getD (.list [])) = .error m) :
    handlerCore env kvs = (.error m, []) := by
  simp [handlerCore, hp, hct, hm, hit]

theorem handlerCore_proc_error (env : Env) (kvs : List (String × PyVal)) (d : String)
    (entries : List PyVal)
    (hp : pyTruthy ((dictGet kvs "prompt").getD .none) = true)
    (hct : pyTruthy ((dictGet kvs "conditioning_images").getD (.list [])) = true)
    (hm : env.mkdtemp = .ok d)
    (hit : pyIter ((dictGet kvs "conditioning_images").getD (.list [])) = .ok entries)
    (m : String) (hproc : procEntries entries = .error m) :
    handlerCore env kvs = (.error m, []) := by
  simp [handlerCore, hp, hct, hm, hit, hproc]

theorem handlerCore_inl_gen (env : Env) (kvs : List (String × PyVal)) (d : String)
    (entries : List PyVal) (r : HResult)
    (hp : pyTruthy ((dictGet kvs "prompt").getD .none) = true)
    (hct : pyTruthy ((dictGet kvs "conditioning_images").getD (.list [])) = true)
    (hm : env.mkdtemp = .ok d)
    (hit : pyIter ((dictGet kvs "conditioning_images").getD (.list [])) = .ok entries)
    (hproc : procEntries entries = .ok (.inl r)) :
    handlerCore env kvs = (.ok r, []) := by
  simp [handlerCore, hp, hct, hm, hit, hproc]

theorem handlerCore_inr_empty_gen (env : Env) (kvs : List (String × PyVal)) (d : String)
    (entries : List PyVal) (sfs : List Int) (sts : List Rat)
    (hp : pyTruthy ((dictGet kvs "prompt").getD .none) = true)
    (hct : pyTruthy ((dictGet kvs "conditioning_images").getD (.list [])) = true)
    (hm : env.mkdtemp = .ok d)
    (hit : pyIter ((dictGet kvs "conditioning_images").getD (.list [])) = .ok entries)
    (hproc : procEntries entries = .ok (.inr ([], sfs, sts))) :
    handlerCore env kvs = (.ok (.error noValidCondMsg), []) := by
  simp [handlerCore, hp, hct, hm, hit, hproc]

theorem handlerCore_inr_gen (env : Env) (kvs : List (String × PyVal)) (d : String)
    (entries : List PyVal) (ps : List PyVal) (sfs : List Int) (sts : List Rat)
    (hp : pyTruthy ((dictGet kvs "prompt").getD .none) = true)
    (hct : pyTruthy ((dictGet kvs "conditioning_images").getD (.list [])) = true)
    (hm : env.mkdtemp = .ok d)
    (hit : pyIter ((dictGet kvs "conditioning_images").getD (.list [])) = .ok entries)
    (hproc : procEntries entries = .ok (.inr (ps, sfs, sts)))
    (hps : ps ≠ []) :
    handlerCore env kvs = tryWrap env d
      ((dictGet kvs "seed").getD (.int (env.randint 0 (2 ^ 32 - 1))))
      ((dictGet kvs "height").getD (.int DEFAULT_HEIGHT))
      ((dictGet kvs "width").getD (.int DEFAULT_WIDTH))
      ((dictGet kvs "num_frames").getD (.int DEFAULT_NUM_FRAMES))
      ((dictGet kvs "frame_rate").getD (.int DEFAULT_FRAME_RATE))
      ((dictGet kvs "prompt").getD .none)
      ((dictGet kvs "negative_prompt").getD (.str DEFAULT_NEGATIVE_PROMPT))
      ps sfs sts := by
  have hpse : ps.isEmpty = false := by
    rw [List.isEmpty_eq_false]
    exact hps
  simp [handlerCore, hp, hct, hm, hit, hproc, hpse]

theorem handlerCore_not_noValid (env : Env) (kvs : List (String × PyVal)) :
    isNoValidCondError (handlerCore env kvs).1 = false := by
  cases hpt : pyTruthy ((dictGet kvs "prompt").getD .none) with
  | false =>
    rw [handlerCore_prompt_falsy env kvs hpt]
    decide
  | true =>
    cases hct : pyTruthy ((dictGet kvs "conditioning_images").getD (.list [])) with
    | false =>
      rw [handlerCore_cond_falsy env kvs hpt hct]
      decide
    | true =>
      cases hm : env.mkdtemp with
      | error m =>
        rw [handlerCore_mkdtemp_error env kvs hpt hct m hm]
        rfl
      | ok d =>
        cases hit : pyIter ((dictGet kvs "conditioning_images").getD (.list [])) with
        | error m =>
          rw [handlerCore_iter_error env kvs d hpt hct hm m hit]
          rfl
        | ok entries =>
          cases hproc : procEntries entries with
          | error m =>
            rw [handlerCore_proc_error env kvs d entries hpt hct hm hit m hproc]
            rfl
          | ok out =>
            cases out with
            | inl r =>
              rw [handlerCore_inl_gen env kvs d entries r hpt hct hm hit hproc]
              have hr := procEntries_inl_msg entries r hproc
              subst hr
              decide
            | inr t =>
              obtain ⟨ps, sfs, sts⟩ := t
              cases ps with
              | nil =>
                have hne := pyIter_truthy_ne_nil hct hit
                cases entries with
                | nil => exact absurd rfl hne
                | cons e rest =>
                  exact absurd rfl (procEntries_cons_inr_ne_nil e rest [] sfs sts hproc)
              | cons p ps' =>
                rw [handlerCore_inr_gen env kvs d entries (p :: ps') sfs sts hpt hct hm hit
                  hproc (by simp)]
                exact tryWrap_not_noValid env d _ _ _ _ _ _ _ (p :: ps') sfs sts

/-- Claim C1 counterexample: the claim asserts the handler never raises past
its own boundary, including for conditioning entries whose start_frame
cannot be coerced to int.  But `int(start_frame)` sits outside the
`try` block: on a job whose single conditioning entry has
start_frame "abc", the handler propagates the ValueError instead of
returning a result mapping. -/
theorem C1_counterexample :
    handler env0 (.dict [("input", .dict [("prompt", .str "p"),
        ("conditioning_images", .list [.dict [("url", .str "u"),
          ("start_frame", .str "abc")]])])]) =
      .error "ValueError: invalid literal for int() with base 10: abc" := by
  rfl

/-- Claim C1 (amended): the handler returns a result mapping of exactly one
of the two shapes (`HResult` has exactly the constructors output_video and
error) — never raising — provided the job and its extracted input are
mappings, the temporary-directory allocation succeeds, and a truthy
conditioning_images value is a list of mappings each of which either fails
the url/start_frame presence check or has an int-coercible start_frame and
float-coercible strength.  Inputs with a non-coercible start_frame or
strength, or a failing temporary-directory allocation, instead raise (see
the counterexample). -/
theorem C1_no_uncaught_exception (env : Env) (job : PyVal)
    (jkvs kvs : List (String × PyVal)) (d : String)
    (hj : job = .dict jkvs)
    (hi : (dictGet jkvs "input").getD (.dict []) = .dict kvs)
    (hm : env.mkdtemp = .ok d)
    (hc : ∀ v, dictGet kvs "conditioning_images" = some v → pyTruthy v = true →
      ∃ es, v = .list es ∧ ∀ e ∈ es, safeEntryB e = true) :
    ∃ r : HResult, handler env job = .ok r :=
  handlerT_ok_of_safe env job jkvs kvs d hj hi hm hc

/-- Witness for C1 (amended) at a concrete valid job. -/
theorem C1_no_uncaught_exception_witness :
    ∃ r : HResult, handler env0 goodJob = .ok r :=
  C1_no_uncaught_exception env0 goodJob _ _ "/tmp/ltx_video_output_x" rfl rfl rfl
    (fun v hv _ => by
      obtain rfl : PyVal.list [goodEntry] = v := Option.some.inj hv
      exact ⟨[goodEntry], rfl, by decide⟩)

/-- Claim C3: for every job whose input sub-mapping is missing prompt, the
handler returns exactly the prompt-required error and the external
inference routine is not invoked (the infer call trace is empty). -/
theorem C3_missing_prompt (env : Env) (job : PyVal)
    (jkvs kvs : List (String × PyVal))
    (hj : job = .dict jkvs)
    (hi : (dictGet jkvs "input").getD (.dict []) = .dict kvs)
    (hp : dictGet kvs "prompt" = Option.none) :
    handlerT env job = (.ok (.error "Prompt is a required input."), []) := by
  subst hj
  rw [handlerT_dict env jkvs kvs hi]
  have hpf : pyTruthy ((dictGet kvs "prompt").getD .none) = false := by
    rw [hp]
    rfl
  exact handlerCore_prompt_falsy env kvs hpf

/-- Witness for C3 at the concrete empty job. -/
theorem C3_missing_prompt_witness :
    handlerT env0 (.dict []) = (.ok (.error "Prompt is a required input."), []) :=
  C3_missing_prompt env0 (.dict []) [] [] rfl rfl rfl

/-- Claim C4 counterexample: the claim quantifies over every job whose input
has empty or absent conditioning_images, but a job that also lacks a prompt
returns the prompt error, whose message does not mention conditioning
images (the substring "conditioning" does not occur in it). -/
theorem C4_counterexample :
    handlerT env0 (.dict [("input", .dict [("conditioning_images", .list [])])]) =
      (.ok (.error "Prompt is a required input."), []) ∧
    subOccurs ("conditioning").data ("Prompt is a required input.").data = false := by
  exact ⟨rfl, rfl⟩

/-- Claim C4 (amended): for every job whose input is a mapping with a truthy
prompt and an empty or absent (falsy) conditioning_images, the handler
returns the conditioning-image-required error — which mentions conditioning
images — and the external inference routine is never invoked (empty infer
trace). -/
theorem C4_empty_conditioning (env : Env) (job : PyVal)
    (jkvs kvs : List (String × PyVal))
    (hj : job = .dict jkvs)
    (hi : (dictGet jkvs "input").getD (.dict []) = .dict kvs)
    (hp : pyTruthy ((dictGet kvs "prompt").getD .none) = true)
    (hc : pyTruthy ((dictGet kvs "conditioning_images").getD (.list [])) = false) :
    handlerT env job =
      (.ok (.error "At least one conditioning image (first frame) is required for image-to-video."),
       []) := by
  subst hj
  rw [handlerT_dict env jkvs kvs hi]
  exact handlerCore_cond_falsy env kvs hp hc

/-- Witness for C4 (amended) at a concrete job with a prompt and no
conditioning images. -/
theorem C4_empty_conditioning_witness :
    handlerT env0 (.dict [("input", .dict [("prompt", .str "p")])]) =
      (.ok (.error "At least one conditioning image (first frame) is required for image-to-video."),
       []) :=
  C4_empty_conditioning env0 _ _ _ rfl rfl (by decide) rfl

/-- Claim C5 counterexample: the claim quantifies over every job with a
conditioning entry missing url or start_frame, but a job that also lacks a
prompt returns the prompt error, which does not name the missing url /
start_frame pair (the substring "url" does not occur in it). -/
theorem C5_counterexample :
    handlerT env0 (.dict [("input", .dict [("conditioning_images", .list [.dict []])])]) =
      (.ok (.error "Prompt is a required input."), []) ∧
    subOccurs ("url").data ("Prompt is a required input.").data = false := by
  exact ⟨rfl, rfl⟩

/-- Claim C5 (amended), two parts.  Part 1: for a job that reaches the
conditioning loop (mapping-shaped, truthy prompt, successful directory
allocation) whose conditioning list is a prefix of fully processable
entries followed by a mapping entry with falsy url or absent/None
start_frame, the handler returns exactly the missing-pair error (which
names both url and start_frame) and the infer trace is empty.  Part 2: on a
fully valid job the handler passes each entry's start_frame through
`int(...)` and strength through `float(...)`: the infer call receives
exactly the per-entry coercion maps. -/
theorem C5_missing_pair :
    (∀ (env : Env) (job : PyVal) (jkvs kvs : List (String × PyVal))
        (good : List PyVal) (bad : PyVal) (rest : List PyVal) (d : String),
      job = .dict jkvs →
      (dictGet jkvs "input").getD (.dict []) = .dict kvs →
      pyTruthy ((dictGet kvs "prompt").getD .none) = true →
      (dictGet kvs "conditioning_images").getD (.list []) = .list (good ++ bad :: rest) →
      (∀ e ∈ good, goodEntryB e = true) →
      isDictB bad = true →
      (!pyTruthy (entryUrl bad) || pyIsNone (entryStartVal bad)) = true →
      env.mkdtemp = .ok d →
      handlerT env job = (.ok (.error condPairMsg), [])) ∧
    (∀ (env : Env) (job : PyVal) (jkvs kvs : List (String × PyVal))
        (es : List PyVal) (d dev : String),
      job = .dict jkvs →
      (dictGet jkvs "input").getD (.dict []) = .dict kvs →
      pyTruthy ((dictGet kvs "prompt").getD .none) = true →
      (dictGet kvs "conditioning_images").getD (.list []) = .list es →
      es ≠ [] →
      (∀ e ∈ es, goodEntryB e = true) →
      env.mkdtemp = .ok d →
      env.get_device = .ok dev →
      exceptOk (pyInt ((dictGet kvs "seed").getD
        (.int (env.randint 0 (2 ^ 32 - 1))))) = true →
      exceptOk (pyInt ((dictGet kvs "height").getD (.int DEFAULT_HEIGHT))) = true →
      exceptOk (pyInt ((dictGet kvs "width").getD (.int DEFAULT_WIDTH))) = true →
      exceptOk (pyInt ((dictGet kvs "num_frames").getD (.int DEFAULT_NUM_FRAMES))) = true →
      exceptOk (pyInt ((dictGet kvs "frame_rate").getD (.int DEFAULT_FRAME_RATE))) = true →
      (handlerT env job).2 = [mkArgsOf env kvs es d dev] ∧
      (mkArgsOf env kvs es d dev).conditioning_start_frames = es.map entryStartFrame ∧
      (mkArgsOf env kvs es d dev).conditioning_strengths = es.map entryStrength) := by
  constructor
  · intro env job jkvs kvs good bad rest d hj hi hp hcv hgood hbd hbp hm
    subst hj
    rw [handlerT_dict env jkvs kvs hi]
    have hne : good ++ bad :: rest ≠ [] := by simp
    exact handlerCore_inl env kvs _ d _ hp hcv hne hm
      (procEntries_append_bad bad rest hbd hbp good hgood)
  · intro env job jkvs kvs es d dev hj hi hp hcv hne hg hm hdev hseed hh hw hnf hfr
    refine ⟨?_, rfl, rfl⟩
    rw [handlerT_valid env job jkvs kvs es d dev hj hi hp hcv hne hg hm hdev
      hseed hh hw hnf hfr]

/-- Witness for C5 (amended): part 1 at a job whose single conditioning
entry is an empty mapping, part 2 at the fully valid job. -/
theorem C5_missing_pair_witness :
    (handlerT env0 (.dict [("input", .dict [("prompt", .str "p"),
        ("conditioning_images", .list [.dict []])])]) =
      (.ok (.error condPairMsg), [])) ∧
    ((handlerT env0 goodJob).2 =
        [mkArgsOf env0 [("prompt", .str "p"),
          ("conditioning_images", .list [goodEntry])] [goodEntry]
          "/tmp/ltx_video_output_x" "cuda"] ∧
      (mkArgsOf env0 [("prompt", .str "p"),
          ("conditioning_images", .list [goodEntry])] [goodEntry]
          "/tmp/ltx_video_output_x" "cuda").conditioning_start_frames =
        [goodEntry].map entryStartFrame ∧
      (mkArgsOf env0 [("prompt", .str "p"),
          ("conditioning_images", .list [goodEntry])] [goodEntry]
          "/tmp/ltx_video_output_x" "cuda").conditioning_strengths =
        [goodEntry].map entryStrength) :=
  ⟨C5_missing_pair.1 env0 _ _ _ [] (.dict []) [] "/tmp/ltx_video_output_x"
      rfl rfl (by decide) rfl (by decide) rfl (by decide) rfl,
   C5_missing_pair.2 env0 goodJob _ _ [goodEntry] "/tmp/ltx_video_output_x" "cuda"
      rfl rfl (by decide) rfl (by simp) (by decide) rfl rfl
      (by decide) (by decide) (by decide) (by decide) (by decide)⟩

/-- Claim C2: for a valid job with a successful inference call, the handler
scans the output directory (the `*.mp4` glob matches followed by the `*.png`
glob matches, in directory-listing order, not otherwise sorted) and returns
the first match as output_video; if no file matches, it returns exactly the
missing-output error. -/
theorem C2_output_scan (env : Env) (job : PyVal)
    (jkvs kvs : List (String × PyVal)) (es : List PyVal) (d dev : String)
    (hj : job = .dict jkvs)
    (hi : (dictGet jkvs "input").getD (.dict []) = .dict kvs)
    (hp : pyTruthy ((dictGet kvs "prompt").getD .none) = true)
    (hcv : (dictGet kvs "conditioning_images").getD (.list []) = .list es)
    (hne : es ≠ [])
    (hg : ∀ e ∈ es, goodEntryB e = true)
    (hm : env.mkdtemp = .ok d)
    (hdev : env.get_device = .ok dev)
    (hseed : exceptOk (pyInt ((dictGet kvs "seed").getD
      (.int (env.randint 0 (2 ^ 32 - 1))))) = true)
    (hh : exceptOk (pyInt ((dictGet kvs "height").getD (.int DEFAULT_HEIGHT))) = true)
    (hw : exceptOk (pyInt ((dictGet kvs "width").getD (.int DEFAULT_WIDTH))) = true)
    (hnf : exceptOk (pyInt ((dictGet kvs "num_frames").getD (.int DEFAULT_NUM_FRAMES))) = true)
    (hfr : exceptOk (pyInt ((dictGet kvs "frame_rate").getD (.int DEFAULT_FRAME_RATE))) = true)
    (hinf : ∀ a, env.infer a = .ok ()) :
    (env.mp4Files ++ env.pngFiles = [] →
      handler env job =
        .ok (.error "Inference completed but no output video/image file found.")) ∧
    (∀ f fs, env.mp4Files ++ env.pngFiles = f :: fs →
      handler env job = .ok (.output_video f)) := by
  have hmain := handlerT_valid env job jkvs kvs es d dev hj hi hp hcv hne hg hm hdev
    hseed hh hw hnf hfr
  constructor
  · intro hfiles
    unfold handler
    rw [hmain]
    show Except.ok (wrapR env (mkArgsOf env kvs es d dev)) = _
    unfold wrapR
    rw [hinf (mkArgsOf env kvs es d dev), hfiles]
    rfl
  · intro f fs hfiles
    unfold handler
    rw [hmain]
    show Except.ok (wrapR env (mkArgsOf env kvs es d dev)) = _
    unfold wrapR
    rw [hinf (mkArgsOf env kvs es d dev), hfiles]

/-- Witness for C2: with no files produced the exact error is returned; with
exactly `video_0.mp4` produced the result is output_video of a path ending
in "video_0.mp4". -/
theorem C2_output_scan_witness :
    (handler env0 goodJob =
      .ok (.error "Inference completed but no output video/image file found.")) ∧
    (handler envOut goodJob =
      .ok (.output_video "/tmp/ltx_video_output_x/video_0.mp4") ∧
     startsList ("video_0.mp4").data.reverse
       ("/tmp/ltx_video_output_x/video_0.mp4").data.reverse = true) :=
  ⟨(C2_output_scan env0 goodJob _ _ [goodEntry] "/tmp/ltx_video_output_x" "cuda"
      rfl rfl (by decide) rfl (by simp) (by decide) rfl rfl
      (by decide) (by decide) (by decide) (by decide) (by decide)
      (fun a => rfl)).1 rfl,
   (C2_output_scan envOut goodJob _ _ [goodEntry] "/tmp/ltx_video_output_x" "cuda"
      rfl rfl (by decide) rfl (by simp) (by decide) rfl rfl
      (by decide) (by decide) (by decide) (by decide) (by decide)
      (fun a => rfl)).2 "/tmp/ltx_video_output_x/video_0.mp4" [] rfl,
   by decide⟩

/-- Claim C6: for a valid job, if the device-selection step or the external
inference routine raises with message m, the handler returns exactly
`{"error": "Inference failed: " + m}` (no exception escapes). -/
theorem C6_inference_failure (env : Env) (job : PyVal)
    (jkvs kvs : List (String × PyVal)) (es : List PyVal) (d : String)
    (hj : job = .dict jkvs)
    (hi : (dictGet jkvs "input").getD (.dict []) = .dict kvs)
    (hp : pyTruthy ((dictGet kvs "prompt").getD .none) = true)
    (hcv : (dictGet kvs "conditioning_images").getD (.list []) = .list es)
    (hne : es ≠ [])
    (hg : ∀ e ∈ es, goodEntryB e = true)
    (hm : env.mkdtemp = .ok d)
    (hseed : exceptOk (pyInt ((dictGet kvs "seed").getD
      (.int (env.randint 0 (2 ^ 32 - 1))))) = true)
    (hh : exceptOk (pyInt ((dictGet kvs "height").getD (.int DEFAULT_HEIGHT))) = true)
    (hw : exceptOk (pyInt ((dictGet kvs "width").getD (.int DEFAULT_WIDTH))) = true)
    (hnf : exceptOk (pyInt ((dictGet kvs "num_frames").getD (.int DEFAULT_NUM_FRAMES))) = true)
    (hfr : exceptOk (pyInt ((dictGet kvs "frame_rate").getD (.int DEFAULT_FRAME_RATE))) = true)
    (m : String)
    (hfail : env.get_device = .error m ∨
      ((∃ dev, env.get_device = .ok dev) ∧ ∀ a, env.infer a = .error m)) :
    handler env job = .ok (.error ("Inference failed: " ++ m)) := by
  rcases hfail with hdev | ⟨⟨dev, hdev⟩, hinf⟩
  · unfold handler
    rw [handlerT_device_error env job jkvs kvs es d hj hi hp hcv hne hg hm m hdev]
  · unfold handler
    rw [handlerT_valid env job jkvs kvs es d dev hj hi hp hcv hne hg hm hdev
      hseed hh hw hnf hfr]
    show Except.ok (wrapR env (mkArgsOf env kvs es d dev)) = _
    unfold wrapR
    rw [hinf (mkArgsOf env kvs es d dev)]

/-- Witness for C6: with an `infer` routine that raises "boom" the result is
the wrapped inference-failure error. -/
theorem C6_inference_failure_witness :
    handler envBoom goodJob = .ok (.error ("Inference failed: " ++ "boom")) :=
  C6_inference_failure envBoom goodJob _ _ [goodEntry] "/tmp/ltx_video_output_x"
    rfl rfl (by decide) rfl (by simp) (by decide) rfl
    (by decide) (by decide) (by decide) (by decide) (by decide)
    "boom" (Or.inr ⟨⟨"cuda", rfl⟩, fun a => rfl⟩)

/-- Claim C7: on a valid job reaching the `infer` call, absent fields are
replaced by their documented defaults (height 704, width 1216, num_frames
121, frame_rate 30, the documented negative-prompt text, and for seed a
value obtained from `randint 0 (2^32 - 1)` — hence, for any range-correct
randint, within the full unsigned 32-bit range), while a present field is
passed through with its supplied value. -/
theorem C7_defaults (env : Env) (job : PyVal)
    (jkvs kvs : List (String × PyVal)) (es : List PyVal) (d dev : String)
    (hj : job = .dict jkvs)
    (hi : (dictGet jkvs "input").getD (.dict []) = .dict kvs)
    (hp : pyTruthy ((dictGet kvs "prompt").getD .none) = true)
    (hcv : (dictGet kvs "conditioning_images").getD (.list []) = .list es)
    (hne : es ≠ [])
    (hg : ∀ e ∈ es, goodEntryB e = true)
    (hm : env.mkdtemp = .ok d)
    (hdev : env.get_device = .ok dev)
    (hseed : exceptOk (pyInt ((dictGet kvs "seed").getD
      (.int (env.randint 0 (2 ^ 32 - 1))))) = true)
    (hh : exceptOk (pyInt ((dictGet kvs "height").getD (.int DEFAULT_HEIGHT))) = true)
    (hw : exceptOk (pyInt ((dictGet kvs "width").getD (.int DEFAULT_WIDTH))) = true)
    (hnf : exceptOk (pyInt ((dictGet kvs "num_frames").getD (.int DEFAULT_NUM_FRAMES))) = true)
    (hfr : exceptOk (pyInt ((dictGet kvs "frame_rate").getD (.int DEFAULT_FRAME_RATE))) = true) :
    ∃ a, (handlerT env job).2 = [a] ∧
      (dictGet kvs "height" = Option.none → a.height = 704) ∧
      (∀ v : Int, dictGet kvs "height" = some (.int v) → a.height = v) ∧
      (dictGet kvs "width" = Option.none → a.width = 1216) ∧
      (∀ v : Int, dictGet kvs "width" = some (.int v) → a.width = v) ∧
      (dictGet kvs "num_frames" = Option.none → a.num_frames = 121) ∧
      (∀ v : Int, dictGet kvs "num_frames" = some (.int v) → a.num_frames = v) ∧
      (dictGet kvs "frame_rate" = Option.none → a.frame_rate = 30) ∧
      (∀ v : Int, dictGet kvs "frame_rate" = some (.int v) → a.frame_rate = v) ∧
      (dictGet kvs "negative_prompt" = Option.none →
        a.negative_prompt = .str DEFAULT_NEGATIVE_PROMPT) ∧
      (∀ v, dictGet kvs "negative_prompt" = some v → a.negative_prompt = v) ∧
      (dictGet kvs "seed" = Option.none →
        a.seed = (env.randint 0 (2 ^ 32 - 1) : Int) ∧
        ((∀ lo hi : Nat, lo ≤ hi → lo ≤ env.randint lo hi ∧ env.randint lo hi ≤ hi) →
          0 ≤ a.seed ∧ a.seed ≤ 2 ^ 32 - 1)) ∧
      (∀ v : Int, dictGet kvs "seed" = some (.int v) → a.seed = v) := by
  refine ⟨mkArgsOf env kvs es d dev, ?_, ?_, ?_, ?_, ?_, ?_, ?_, ?_, ?_, ?_, ?_, ?_, ?_⟩
  · rw [handlerT_valid env job jkvs kvs es d dev hj hi hp hcv hne hg hm hdev
      hseed hh hw hnf hfr]
  · intro hnone
    simp [mkArgsOf, mkArgs, hnone, pyInt, exceptD, DEFAULT_HEIGHT]
  · intro v hv
    simp [mkArgsOf, mkArgs, hv, pyInt, exceptD]
  · intro hnone
    simp [mkArgsOf, mkArgs, hnone, pyInt, exceptD, DEFAULT_WIDTH]
  · intro v hv
    simp [mkArgsOf, mkArgs, hv, pyInt, exceptD]
  · intro hnone
    simp [mkArgsOf, mkArgs, hnone, pyInt, exceptD, DEFAULT_NUM_FRAMES]
  · intro v hv
    simp [mkArgsOf, mkArgs, hv, pyInt, exceptD]
  · intro hnone
    simp [mkArgsOf, mkArgs, hnone, pyInt, exceptD, DEFAULT_FRAME_RATE]
  · intro v hv
    simp [mkArgsOf, mkArgs, hv, pyInt, exceptD]
  · intro hnone
    simp [mkArgsOf, mkArgs, hnone]
  · intro v hv
    simp [mkArgsOf, mkArgs, hv]
  · intro hnone
    have hseedval : (mkArgsOf env kvs es d dev).seed =
        (env.randint 0 (2 ^ 32 - 1) : Int) := by
      simp [mkArgsOf, mkArgs, hnone, pyInt, exceptD]
    refine ⟨hseedval, ?_⟩
    intro hrange
    obtain ⟨h1, h2⟩ := hrange 0 (2 ^ 32 - 1) (by norm_num)
    rw [hseedval]
    omega
  · intro v hv
    simp [mkArgsOf, mkArgs, hv, pyInt, exceptD]

/-- Witness for C7 at the valid job with all optional fields absent. -/
theorem C7_defaults_witness :
    ∃ a, (handlerT env0 goodJob).2 = [a] ∧
      (dictGet [("prompt", PyVal.str "p"),
          ("conditioning_images", .list [goodEntry])] "height" = Option.none →
        a.height = 704) ∧
      (∀ v : Int, dictGet [("prompt", PyVal.str "p"),
          ("conditioning_images", .list [goodEntry])] "height" = some (.int v) →
        a.height = v) ∧
      (dictGet [("prompt", PyVal.str "p"),
          ("conditioning_images", .list [goodEntry])] "width" = Option.none →
        a.width = 1216) ∧
      (∀ v : Int, dictGet [("prompt", PyVal.str "p"),
          ("conditioning_images", .list [goodEntry])] "width" = some (.int v) →
        a.width = v) ∧
      (dictGet [("prompt", PyVal.str "p"),
          ("conditioning_images", .list [goodEntry])] "num_frames" = Option.none →
        a.num_frames = 121) ∧
      (∀ v : Int, dictGet [("prompt", PyVal.str "p"),
          ("conditioning_images", .list [goodEntry])] "num_frames" = some (.int v) →
        a.num_frames = v) ∧
      (dictGet [("prompt", PyVal.str "p"),
          ("conditioning_images", .list [goodEntry])] "frame_rate" = Option.none →
        a.frame_rate = 30) ∧
      (∀ v : Int, dictGet [("prompt", PyVal.str "p"),
          ("conditioning_images", .list [goodEntry])] "frame_rate" = some (.int v) →
        a.frame_rate = v) ∧
      (dictGet [("prompt", PyVal.str "p"),
          ("conditioning_images", .list [goodEntry])] "negative_prompt" = Option.none →
        a.negative_prompt = .str DEFAULT_NEGATIVE_PROMPT) ∧
      (∀ v, dictGet [("prompt", PyVal.str "p"),
          ("conditioning_images", .list [goodEntry])] "negative_prompt" = some v →
        a.negative_prompt = v) ∧
      (dictGet [("prompt", PyVal.str "p"),
          ("conditioning_images", .list [goodEntry])] "seed" = Option.none →
        a.seed = (env0.randint 0 (2 ^ 32 - 1) : Int) ∧
        ((∀ lo hi : Nat, lo ≤ hi → lo ≤ env0.randint lo hi ∧ env0.randint lo hi ≤ hi) →
          0 ≤ a.seed ∧ a.seed ≤ 2 ^ 32 - 1)) ∧
      (∀ v : Int, dictGet [("prompt", PyVal.str "p"),
          ("conditioning_images", .list [goodEntry])] "seed" = some (.int v) →
        a.seed = v) :=
  C7_defaults env0 goodJob _ _ [goodEntry] "/tmp/ltx_video_output_x" "cuda"
    rfl rfl (by decide) rfl (by simp) (by decide) rfl rfl
    (by decide) (by decide) (by decide) (by decide) (by decide)

/-- Claim C8: whenever the handler invokes `infer` on a valid job, it passes
the fixed pipeline configuration identifier, image_cond_noise_scale 0.15
(the rational 15/100), offload_to_cpu false, no input media path, and three
parallel per-entry lists (media paths, strengths, start frames) of equal
length, one element per conditioning entry in input order. -/
theorem C8_infer_args (env : Env) (job : PyVal)
    (jkvs kvs : List (String × PyVal)) (es : List PyVal) (d dev : String)
    (hj : job = .dict jkvs)
    (hi : (dictGet jkvs "input").getD (.dict []) = .dict kvs)
    (hp : pyTruthy ((dictGet kvs "prompt").getD .none) = true)
    (hcv : (dictGet kvs "conditioning_images").getD (.list []) = .list es)
    (hne : es ≠ [])
    (hg : ∀ e ∈ es, goodEntryB e = true)
    (hm : env.mkdtemp = .ok d)
    (hdev : env.get_device = .ok dev)
    (hseed : exceptOk (pyInt ((dictGet kvs "seed").getD
      (.int (env.randint 0 (2 ^ 32 - 1))))) = true)
    (hh : exceptOk (pyInt ((dictGet kvs "height").getD (.int DEFAULT_HEIGHT))) = true)
    (hw : exceptOk (pyInt ((dictGet kvs "width").getD (.int DEFAULT_WIDTH))) = true)
    (hnf : exceptOk (pyInt ((dictGet kvs "num_frames").getD (.int DEFAULT_NUM_FRAMES))) = true)
    (hfr : exceptOk (pyInt ((dictGet kvs "frame_rate").getD (.int DEFAULT_FRAME_RATE))) = true) :
    ∃ a, (handlerT env job).2 = [a] ∧
      a.pipeline_config = "configs/ltxv-13b-0.9.7-distilled.yaml" ∧
      a.image_cond_noise_scale = 15 / 100 ∧
      a.offload_to_cpu = false ∧
      a.input_media_path = Option.none ∧
      a.conditioning_media_paths = es.map entryUrl ∧
      a.conditioning_strengths = es.map entryStrength ∧
      a.conditioning_start_frames = es.map entryStartFrame ∧
      a.conditioning_media_paths.length = es.length ∧
      a.conditioning_strengths.length = es.length ∧
      a.conditioning_start_frames.length = es.length := by
  refine ⟨mkArgsOf env kvs es d dev, ?_, rfl, rfl, rfl, rfl, rfl, rfl, rfl, ?_, ?_, ?_⟩
  · rw [handlerT_valid env job jkvs kvs es d dev hj hi hp hcv hne hg hm hdev
      hseed hh hw hnf hfr]
  · simp [mkArgsOf, mkArgs]
  · simp [mkArgsOf, mkArgs]
  · simp [mkArgsOf, mkArgs]

/-- Witness for C8 at the concrete valid job. -/
theorem C8_infer_args_witness :
    ∃ a, (handlerT env0 goodJob).2 = [a] ∧
      a.pipeline_config = "configs/ltxv-13b-0.9.7-distilled.yaml" ∧
      a.image_cond_noise_scale = 15 / 100 ∧
      a.offload_to_cpu = false ∧
      a.input_media_path = Option.none ∧
      a.conditioning_media_paths = [goodEntry].map entryUrl ∧
      a.conditioning_strengths = [goodEntry].map entryStrength ∧
      a.conditioning_start_frames = [goodEntry].map entryStartFrame ∧
      a.conditioning_media_paths.length = [goodEntry].length ∧
      a.conditioning_strengths.length = [goodEntry].length ∧
      a.conditioning_start_frames.length = [goodEntry].length :=
  C8_infer_args env0 goodJob _ _ [goodEntry] "/tmp/ltx_video_output_x" "cuda"
    rfl rfl (by decide) rfl (by simp) (by decide) rfl rfl
    (by decide) (by decide) (by decide) (by decide) (by decide)

/-- Claim C9: the handler never returns the "No valid conditioning images
provided or processed." error: the emptiness check after the per-entry loop
is unreachable, because reaching the loop requires a truthy (hence
non-empty) iterable and each processed entry appends one path. -/
theorem C9_noValid_unreachable (env : Env) (job : PyVal) :
    isNoValidCondError (handler env job) = false := by
  cases job with
  | dict jkvs =>
    unfold handler handlerT
    simp only [pyGetD]
    cases hji : (dictGet jkvs "input").getD (.dict []) with
    | dict kvs => exact handlerCore_not_noValid env kvs
    | none => rfl
    | bool b => rfl
    | int n => rfl
    | float q => rfl
    | str s => rfl
    | list xs => rfl
  | none => rfl
  | bool b => rfl
  | int n => rfl
  | float q => rfl
  | str s => rfl
  | list xs => rfl

/-- Claim C10: conditioning-entry validation at the boundary values: an
entry with start_frame 0 (presence is tested with `is None`, so the falsy 0
passes) and a non-empty url passes and is emitted with the default strength
1.0, while an entry whose url is the empty string is treated as missing and
rejected with the missing-pair error. -/
theorem C10_boundary_validation (u : String) (hu : u ≠ "") :
    procEntries [.dict [("url", .str u), ("start_frame", .int 0)]] =
      .ok (.inr ([.str u], [0], [1])) ∧
    procEntries [.dict [("url", .str ""), ("start_frame", .int 0)]] =
      .ok (.inl (.error condPairMsg)) := by
  constructor
  · have hturl : pyTruthy (.str u) = true := by simp [pyTruthy, hu]
    simp [procEntries, pyGetD, dictGet, hturl, pyIsNone, pyInt, pyFloat, exceptD]
  · rfl

/-- Witness for C10 at url "u". -/
theorem C10_boundary_validation_witness :
    procEntries [.dict [("url", .str "u"), ("start_frame", .int 0)]] =
      .ok (.inr ([.str "u"], [0], [1])) ∧
    procEntries [.dict [("url", .str ""), ("start_frame", .int 0)]] =
      .ok (.inl (.error condPairMsg)) :=
  C10_boundary_validation "u" (by decide)

end LTX
